/-
  Verification of the YouTube-No-Translation restoration core against its
  natural-language specification.

  Shallow embedding of:
  - src/content/description/DescriptionGuardScript.js  (page-realm guard)
  - src/content/Mobile/mobilePanel.ts                  (mobile-panel patcher/observer)
  - the search-result channel renderer patcher (patchChannelRendererBlocks)

  Helpers that live outside the provided sources (normalizeText, the
  description cache, isYouTubeDataAPIEnabled, waitForElement) are modelled
  from the spec; each such definition carries a doc comment starting with
  "Modelled from the spec:".
-/
import Mathlib

namespace YNT

/-! ## Text normalization (spec-modelled helper) -/

/-- Splits a character list into maximal whitespace-free words, accumulating
the current word in reverse. -/
def wordsAux : List Char → List Char → List (List Char)
  | [], acc => if acc.isEmpty then [] else [acc.reverse]
  | c :: cs, acc =>
    if c.isWhitespace then
      if acc.isEmpty then wordsAux cs [] else acc.reverse :: wordsAux cs []
    else wordsAux cs (c :: acc)

/-- Joins words with single spaces. -/
def joinWords : List (List Char) → List Char
  | [] => []
  | [w] => w
  | w :: ws => w ++ ' ' :: joinWords ws

/-- Modelled from the spec: `normalizeText` (src/utils/text, not in the
provided sources) canonicalizes text for equality comparison —
case-insensitive and whitespace-insensitive, so that `"foo bar"` and
`"Foo   Bar"` compare equal. Implemented as: lowercase, split into
whitespace-separated words, rejoin with single spaces. -/
def normalizeText (s : String) : String :=
  ⟨joinWords (wordsAux (s.data.map Char.toLower) [])⟩

/-- JS `s.trim()`: strip leading and trailing whitespace. -/
def jsTrim (s : String) : String :=
  ⟨((s.data.dropWhile Char.isWhitespace).reverse.dropWhile
      Char.isWhitespace).reverse⟩

/-- JS string truthiness: a string is truthy iff nonempty; `null`/`undefined`
(modelled as `none`) is falsy. -/
def truthyStr : Option String → Bool
  | none => false
  | some s => s ≠ ""

/-! ## Page-realm guard (DescriptionGuardScript.js)

The guard script reads a mode attribute from its script tag, then either
installs a wrapper around `Node.prototype.removeChild` (saving the original
under `window.__YNT_ORIGINAL_REMOVE_CHILD__`) or restores the saved original.
We model the realm state as: what is saved under the window key, which
implementation `Node.prototype.removeChild` currently points to, and the
diagnostic block counter. -/

/-- The two `removeChild` implementations that can be installed in the page
realm: the browser-native primitive, or the guard's suppression wrapper. -/
inductive RemovalImpl
  | original
  | wrapper
  deriving DecidableEq, Repr

/-- Page-realm state touched by the guard script: the well-known window key,
the current value of `Node.prototype.removeChild`, and the suppression
counter. -/
structure GuardState where
  /-- models `window.__YNT_ORIGINAL_REMOVE_CHILD__` -/
  savedOriginal : Option RemovalImpl
  removeChild : RemovalImpl
  blockCount : Nat
  deriving DecidableEq, Repr

/-- The page-realm state before the guard script has ever run: nothing saved
on the window key and the native primitive installed. -/
def initGuardState : GuardState :=
  { savedOriginal := none, removeChild := .original, blockCount := 0 }

/-- `const mode = currentScript?.getAttribute('data-ynt-description-guard-mode') || 'enable'`:
a missing script tag or missing attribute gives `undefined`, an empty
attribute is falsy; both default to `"enable"`. Any other value is kept. -/
def readGuardMode (attr : Option String) : String :=
  match attr with
  | none => "enable"
  | some s => if s = "" then "enable" else s

/-- One execution of the guard script's IIFE (DescriptionGuardScript.js,
lines 47-113), given the mode attribute on the script tag and whether
`#description-inline-expander` is present in the document.

`disable` branch: if `window[ORIGINAL_KEY]` holds a function, restore it as
`Node.prototype.removeChild`; the stored reference is NOT cleared (the
clearing line is commented out in the source). Otherwise no-op.

`enable` branch (default): if `window[ORIGINAL_KEY]` is truthy, skip
re-install; if the description element is absent, no-op; otherwise save the
current `Node.prototype.removeChild` under the key and install the wrapper. -/
def runGuardScript (attr : Option String) (descPresent : Bool)
    (st : GuardState) : GuardState :=
  let mode := readGuardMode attr
  if mode = "disable" then
    match st.savedOriginal with
    | some f => { st with removeChild := f }
    | none => st
  else
    match st.savedOriginal with
    | some _ => st
    | none =>
      if descPresent then
        { savedOriginal := some st.removeChild
          removeChild := .wrapper
          blockCount := st.blockCount }
      else st

/-- Whether the guard script's dispatch selects the restore (disable) path. -/
def selectsDisablePath (attr : Option String) : Bool :=
  readGuardMode attr = "disable"

/-! ### The DOM tree and the removeChild semantics

Nodes are numbered; `parent` maps each node to its parent. The invariant
`parent_lt` (every parent has a smaller number than its child) captures the
acyclicity of the real DOM and makes the ancestor walk terminate. -/

/-- A DOM tree fragment: each node's parent, with parents numbered below
their children (DOM trees are acyclic, so such a numbering always exists). -/
structure Dom where
  parent : Nat → Option Nat
  parent_lt : ∀ n p, parent n = some p → p < n

/-- `isInDescriptionElement` (DescriptionGuardScript.js lines 93-100): walk
the `parentNode` chain from `n`; return true iff the protected description
element `descEl` is `n` itself or one of its ancestors. -/
def isInDescriptionElement (d : Dom) (descEl : Nat) (n : Nat) : Bool :=
  if n = descEl then true
  else
    match h : d.parent n with
    | none => false
    | some p => isInDescriptionElement d descEl p
termination_by n
decreasing_by exact d.parent_lt n p h

/-- The browser-native `removeChild` primitive: if `child`'s parent is the
receiver, detach `child` (its parent becomes `none`) and return it;
otherwise the call throws (`none`). -/
def nativeRemoveChild (d : Dom) (receiver child : Nat) : Option (Nat × Dom) :=
  if hc : d.parent child = some receiver then
    some (child,
      { parent := fun n => if n = child then none else d.parent n
        parent_lt := by
          intro n p hp
          by_cases hn : n = child
          · simp [hn] at hp
          · simp only [hn, if_false] at hp
            exact d.parent_lt n p hp })
  else none

/-- Result of one wrapped `removeChild` call: the returned node (or `none`
for a thrown call), the DOM afterwards, and how many suppressions the call
added to the counter. -/
structure RemoveCallResult where
  returned : Option Nat
  dom : Dom
  blockedDelta : Nat

/-- The guard's `Node.prototype.removeChild` wrapper (DescriptionGuardScript.js
lines 103-111): if the receiver (`this`) is inside the protected description
element, increment the counter and return the child without removing it;
otherwise delegate to the saved original primitive. -/
def guardedRemoveChild (d : Dom) (descEl : Nat) (receiver child : Nat) :
    RemoveCallResult :=
  if isInDescriptionElement d descEl receiver then
    { returned := some child, dom := d, blockedDelta := 1 }
  else
    match nativeRemoveChild d receiver child with
    | some (ret, d') => { returned := some ret, dom := d', blockedDelta := 0 }
    | none => { returned := none, dom := d, blockedDelta := 0 }

/-- Dispatch of a `removeChild` call through whatever implementation is
currently installed in the realm. -/
def callRemoveChild (impl : RemovalImpl) (d : Dom) (descEl : Nat)
    (receiver child : Nat) : RemoveCallResult :=
  match impl with
  | .original =>
    match nativeRemoveChild d receiver child with
    | some (ret, d') => { returned := some ret, dom := d', blockedDelta := 0 }
    | none => { returned := none, dom := d, blockedDelta := 0 }
  | .wrapper => guardedRemoveChild d descEl receiver child

/-- A concrete three-node DOM for witnesses: node 0 is the document root,
node 1 is the description element (child of 0), node 2 is a text child of
the description element, node 3 is an unrelated child of the root. -/
def sampleDom : Dom :=
  { parent := fun n => if n = 1 then some 0 else if n = 2 then some 1 else
      if n = 3 then some 0 else none
    parent_lt := by
      intro n p hp
      by_cases h1 : n = 1
      · simp [h1] at hp; omega
      · by_cases h2 : n = 2
        · simp [h1, h2] at hp; omega
        · by_cases h3 : n = 3
          · simp [h1, h2, h3] at hp; omega
          · simp [h1, h2, h3] at hp }

/-! ## Channel description / channel name resolution (mobilePanel.ts and
patchChannelRendererBlocks)

The network collaborators are modelled as an oracle environment holding the
response each upstream call would give; the embedding records the sequence of
upstream calls actually made, so fallback ordering is observable. -/

/-- JS `a.startsWith(b)`: `b` is a prefix of `a` (character-wise). -/
def jsStartsWith (a b : String) : Bool := b.data.isPrefixOf a.data

/-- The relevant part of the extension settings snapshot:
`youtubeDataApi.enabled` and `youtubeDataApi.apiKey` (`""` = missing). -/
structure ApiSettings where
  dataApiEnabled : Bool
  apiKey : String
  deriving DecidableEq, Repr

/-- Modelled from the spec: `isYouTubeDataAPIEnabled` (src/utils/utils, not in
the provided sources) — the Official API path is selected when both the
capability flag and the credential are present. -/
def isYouTubeDataAPIEnabled (s : ApiSettings) : Bool :=
  s.dataApiEnabled && s.apiKey ≠ ""

/-- One upstream call, tagged by which API it belongs to. -/
inductive ApiCall
  | dataApiChannelByHandle
  | dataApiChannelById
  | dataApiChannelName
  | innerTubeChannelId
  | innerTubeChannelDescription
  | innerTubeChannelName
  deriving DecidableEq, Repr

/-- Whether a call goes to the Internal (InnerTube) API. -/
def ApiCall.isInnerTube : ApiCall → Bool
  | .innerTubeChannelId => true
  | .innerTubeChannelDescription => true
  | .innerTubeChannelName => true
  | _ => false

/-- The `{ id, description }` record returned by
`getOriginalChannelDescriptionDataAPI`. -/
structure ChannelDescData where
  id : String
  description : String
  deriving DecidableEq, Repr

/-- Oracle environment: the response each upstream call would produce, plus
the settings snapshot and the channel handle derived from the location. -/
structure FetchEnv where
  settings : ApiSettings
  channelHandle : Option String
  dataApiByHandle : Option ChannelDescData
  dataApiById : Option ChannelDescData
  innerTubeId : Option String
  innerTubeDescription : Option String
  dataApiName : Option String
  innerTubeName : Option String
  deriving DecidableEq, Repr

/-- Outcome of `updateMobilePanelChannelDescription`: the upstream calls made
in order, the original description the operation settled on (`none` when an
early return aborted it), and whether a DOM write happened. -/
structure ChannelDescOutcome where
  calls : List ApiCall
  resolved : Option String
  wrote : Bool
  deriving DecidableEq, Repr

/-- `updateMobilePanelChannelDescription` (mobilePanel.ts lines 95-157), with
the DOM element present and its displayed text given as `currentText`.
Faithful to the source:
- `currentDescription = textContent?.trim() || ''`;
- if the Data API is enabled: abort when the key is missing; otherwise, with
  a handle, try `getOriginalChannelDescriptionDataAPI({handle})`, and on a
  null result discover the id via `getChannelIdFromInnerTube` and retry by id;
- if the Data API result has a truthy description use it, else resolve a
  channel id (if still unknown) and fetch from InnerTube, aborting when the
  id or the InnerTube description is missing;
- skip the write when `normalizeText(originalDescription).startsWith(normalizeText(currentDescription))`. -/
def updateMobilePanelChannelDescription (env : FetchEnv) (currentText : String) :
    ChannelDescOutcome :=
  let currentDescription := jsTrim currentText
  -- Data API attempt (lines 111-127)
  let attempt :
      Option (List ApiCall × Option String × Option ChannelDescData) :=
    if isYouTubeDataAPIEnabled env.settings then
      if env.settings.apiKey = "" then none  -- early return: missing key
      else
        match env.channelHandle with
        | some _ =>
          match env.dataApiByHandle with
          | some d => some ([.dataApiChannelByHandle], none, some d)
          | none =>
            match env.innerTubeId with
            | some cid =>
              some ([.dataApiChannelByHandle, .innerTubeChannelId,
                     .dataApiChannelById], some cid, env.dataApiById)
            | none =>
              some ([.dataApiChannelByHandle, .innerTubeChannelId], none, none)
        | none => some ([], none, none)
    else some ([], none, none)
  match attempt with
  | none => { calls := [], resolved := none, wrote := false }
  | some (calls₀, channelId₀, data) =>
    -- use the Data API result if it has a truthy description (line 132)
    let resolvedViaData : Option String :=
      match data with
      | some d => if d.description = "" then none else some d.description
      | none => none
    match resolvedViaData with
    | some desc =>
      { calls := calls₀, resolved := some desc
        wrote := !jsStartsWith (normalizeText desc) (normalizeText currentDescription) }
    | none =>
      -- InnerTube path (lines 135-147)
      let step : List ApiCall × Option String :=
        match channelId₀, env.channelHandle with
        | none, some _ => (calls₀ ++ [.innerTubeChannelId], env.innerTubeId)
        | none, none => (calls₀, none)
        | some cid, _ => (calls₀, some cid)
      let calls₁ := step.1
      let channelId₁ := step.2
      match channelId₁ with
      | none => { calls := calls₁, resolved := none, wrote := false }
      | some _ =>
        let calls₂ := calls₁ ++ [.innerTubeChannelDescription]
        match env.innerTubeDescription with
        | none => { calls := calls₂, resolved := none, wrote := false }
        | some desc =>
          if desc = "" then { calls := calls₂, resolved := none, wrote := false }
          else
            { calls := calls₂, resolved := some desc
              wrote := !jsStartsWith (normalizeText desc)
                (normalizeText currentDescription) }

/-- Outcome of the channel-name fetch inside `patchChannelRendererBlocks`:
the upstream calls made in order and the original name it settled on. -/
structure ChannelNameOutcome where
  calls : List ApiCall
  resolved : Option String
  deriving DecidableEq, Repr

/-- The channel-name fetch branch of `patchChannelRendererBlocks` (lines
43-56 of the renderer patcher), for a renderer whose handle was found: when
the Data API is enabled, `fetchChannelNameDataAPI` alone is consulted (its
failure is final — no InnerTube fallback); otherwise the InnerTube id
discovery runs, aborting the renderer when it fails, then
`fetchChannelNameInnerTube`. -/
def channelRendererNameFetch (env : FetchEnv) : ChannelNameOutcome :=
  if isYouTubeDataAPIEnabled env.settings then
    { calls := [.dataApiChannelName], resolved := env.dataApiName }
  else
    match env.innerTubeId with
    | none => { calls := [.innerTubeChannelId], resolved := none }
    | some _ =>
      { calls := [.innerTubeChannelId, .innerTubeChannelName]
        resolved := env.innerTubeName }

/-- The channel-description write decision of `patchChannelRendererBlocks`
(lines 86-89): with the description element present, write iff the fetched
original is truthy and differs from the trimmed current text. -/
def rendererDescriptionWrites (currentText : String)
    (originalDescription : Option String) : Bool :=
  match originalDescription with
  | none => false
  | some d => d ≠ "" && jsTrim currentText ≠ d

/-! ## Mobile panel title and video description (mobilePanel.ts) -/

/-- `updateMobilePanelTitle` (mobilePanel.ts lines 29-59) with the title
element present: given the displayed title and the result of
`fetchMainTitle`, returns the element text afterwards and whether a DOM
write happened. A falsy fetched title aborts; an already-correct title
(equal after normalization) short-circuits with no write; otherwise the
fetched title is written. -/
def updateMobilePanelTitle (currentTitle : String)
    (fetchedTitle : Option String) : String × Bool :=
  match fetchedTitle with
  | none => (currentTitle, false)
  | some t =>
    if t = "" then (currentTitle, false)
    else if normalizeText currentTitle = normalizeText t then
      (currentTitle, false)
    else (t, true)

/-- Modelled from the spec: the description cache contract
(`descriptionCache` in src/content/description/index, not in the provided
sources) — `getDescription(videoId)` returns the stored text or null,
`setDescription(videoId, text)` inserts/overwrites, no eviction. Modelled as
an association list with shadowing insert. -/
def getDescription (cache : List (String × String)) (videoId : String) :
    Option String :=
  (cache.find? (fun e => e.1 = videoId)).map (fun e => e.2)

/-- Modelled from the spec: the cache's `setDescription` (see
`getDescription`). -/
def setDescription (cache : List (String × String)) (videoId text : String) :
    List (String × String) :=
  (videoId, text) :: cache

/-- Outcome of `updateMobilePanelVideoDescription`: the cache afterwards,
whether `fetchOriginalDescription` was invoked, and the text written to the
DOM (`none` = no write). -/
structure VideoDescOutcome where
  cache : List (String × String)
  fetchIssued : Bool
  domWrite : Option String
  deriving DecidableEq, Repr

/-- `updateMobilePanelVideoDescription` (mobilePanel.ts lines 65-89) with
the description container present: read the cache; a truthy cached
description is written directly; otherwise `fetchOriginalDescription` runs
(its would-be result given by the `fetchResult` oracle), and a truthy
fetched description is cached and written while a falsy one leaves both the
cache and the DOM untouched. -/
def updateMobilePanelVideoDescription (cache : List (String × String))
    (videoId : String) (fetchResult : Option String) : VideoDescOutcome :=
  let description := getDescription cache videoId
  if truthyStr description then
    { cache := cache, fetchIssued := false, domWrite := description }
  else
    match fetchResult with
    | none => { cache := cache, fetchIssued := true, domWrite := none }
    | some t =>
      if t = "" then { cache := cache, fetchIssued := true, domWrite := none }
      else
        { cache := setDescription cache videoId t
          fetchIssued := true
          domWrite := some t }

/-- An environment where the Data API is enabled with a key but its
channel-name lookup fails, while the InnerTube lookups would succeed. -/
def dataApiNameFailEnv : FetchEnv :=
  { settings := { dataApiEnabled := true, apiKey := "k" }
    channelHandle := some "Nowtech"
    dataApiByHandle := none
    dataApiById := none
    innerTubeId := some "UC123"
    innerTubeDescription := some "original description"
    dataApiName := none
    innerTubeName := some "Nowtech Original" }

/-! ## Mobile panel observer (setupMobilePanelObserver /
cleanupMobilePanelObserver and the MutationObserver callback) -/

/-- A DOM node as seen by the observer callback's classification checks:
whether it is an element node, and whether it matches-or-contains each of
the two marker selectors (`.primary-info`, `ytm-about-channel-renderer`). -/
structure MNode where
  isElement : Bool
  primaryInfo : Bool
  aboutChannel : Bool
  deriving DecidableEq, Repr

/-- One mutation record: its type and the added/removed nodes. -/
structure Mutation where
  isChildList : Bool
  addedNodes : List MNode
  removedNodes : List MNode
  deriving DecidableEq, Repr

/-- The two refresh routines the callback can fire. -/
inductive RefreshKind
  | video
  | channel
  deriving DecidableEq, Repr

/-- `node.nodeType === Node.ELEMENT_NODE && (element.matches('.primary-info') || element.querySelector('.primary-info'))`. -/
def nodeQualifiesVideo (n : MNode) : Bool := n.isElement && n.primaryInfo

/-- The same check for `ytm-about-channel-renderer`. -/
def nodeQualifiesChannel (n : MNode) : Bool := n.isElement && n.aboutChannel

/-- The MutationObserver callback of `setupMobilePanelObserver`
(mobilePanel.ts lines 206-257): scan the batch in order; for each childList
mutation check the added nodes for a video marker first, then for a channel
marker; on the first match fire the corresponding refresh routine and return
(scanning stops); removed-node matches only produce a log line. Returns the
refresh routines fired, in order. -/
def mobilePanelCallback : List Mutation → List RefreshKind
  | [] => []
  | m :: rest =>
    if m.isChildList then
      if m.addedNodes.any nodeQualifiesVideo then [.video]
      else if m.addedNodes.any nodeQualifiesChannel then [.channel]
      else mobilePanelCallback rest
    else mobilePanelCallback rest

/-- An added element node matching `.primary-info`. -/
def vidNode : MNode := { isElement := true, primaryInfo := true, aboutChannel := false }

/-- An added element node matching `ytm-about-channel-renderer`. -/
def chanNode : MNode := { isElement := true, primaryInfo := false, aboutChannel := true }

/-! ### Observer lifecycle -/

/-- Lifecycle state: `pendingWaits` counts setup calls whose
`waitForElement('ytm-app > panel-container')` promise has not yet resolved;
`handle` is the module-level `mobilePanelObserver` variable; `active` lists
the observer instances currently observing (created and never disconnected);
`nextId` numbers created observers. -/
structure ObserverState where
  pendingWaits : Nat
  handle : Option Nat
  active : List Nat
  nextId : Nat
  deriving DecidableEq, Repr

/-- The state before any setup: no observer, nothing pending. -/
def initObserverState : ObserverState :=
  { pendingWaits := 0, handle := none, active := [], nextId := 0 }

/-- `cleanupMobilePanelObserver` (mobilePanel.ts lines 287-293): if the
handle is set, disconnect that observer and clear the handle; otherwise a
no-op. -/
def cleanupMobilePanelObserver (st : ObserverState) : ObserverState :=
  match st.handle with
  | some o => { st with handle := none, active := st.active.erase o }
  | none => st

/-- The synchronous body of `setupMobilePanelObserver` (lines 199-203):
call cleanup first, then start the asynchronous wait for the panel
container. Modelled from the spec: `waitForElement` (src/utils/dom, not in
the provided sources) resolves asynchronously — possibly after further
setup calls — and never synchronously within the call. -/
def setupMobilePanelObserverSync (st : ObserverState) : ObserverState :=
  let st' := cleanupMobilePanelObserver st
  { st' with pendingWaits := st'.pendingWaits + 1 }

/-- The `waitForElement(...).then` continuation (lines 203-277): create a
new MutationObserver, store it in the module handle (overwriting whatever
was there without disconnecting it), and start observing the panel. -/
def resolvePanelWait (st : ObserverState) : ObserverState :=
  if st.pendingWaits = 0 then st
  else
    { pendingWaits := st.pendingWaits - 1
      handle := some st.nextId
      active := st.active ++ [st.nextId]
      nextId := st.nextId + 1 }

/-- Events of the observer lifecycle as the page may interleave them. -/
inductive ObserverEvent
  | setup
  | resolve
  | cleanup
  deriving DecidableEq, Repr

/-- One lifecycle event. -/
def observerStep (st : ObserverState) : ObserverEvent → ObserverState
  | .setup => setupMobilePanelObserverSync st
  | .resolve => resolvePanelWait st
  | .cleanup => cleanupMobilePanelObserver st

/-- Run a sequence of lifecycle events from the initial state. -/
def runObserver (evs : List ObserverEvent) : ObserverState :=
  evs.foldl observerStep initObserverState

/-- Non-overlapping operations: a setup whose wait resolves before anything
else happens, or a cleanup call. -/
inductive ObserverOp
  | setupResolved
  | cleanup
  deriving DecidableEq, Repr

/-- Run non-overlapping operations from a given state. -/
def runObserverOps (ops : List ObserverOp) (st : ObserverState) : ObserverState :=
  ops.foldl (fun st op =>
    match op with
    | .setupResolved => resolvePanelWait (setupMobilePanelObserverSync st)
    | .cleanup => cleanupMobilePanelObserver st) st

/-- The single-active-subscription invariant: the handle points at the one
active observer (or none are active), with no wait pending. -/
def ObserverInv (st : ObserverState) : Prop :=
  st.pendingWaits = 0 ∧
  (match st.handle with
   | some o => st.active = [o]
   | none => st.active = [])

/-! ### Refresh routines and the trigger-to-refresh pipeline -/

/-- Outcome of `refreshMobileVideoPanelContent`: the video id it derived
(none = aborted) and which patches ran. -/
structure VideoPanelRefreshOutcome where
  usedVideoId : Option String
  titlePatched : Bool
  descPatched : Bool
  deriving DecidableEq, Repr

/-- `refreshMobileVideoPanelContent` (mobilePanel.ts lines 163-181): derive
the video id from `window.location.href` AT EXECUTION TIME via
`extractVideoIdFromUrl`; abort when absent; otherwise run the title and
description patches, keyed to that id, according to the settings toggles.
`extractVideoIdFromUrl` (src/utils/video, not in the provided sources) is a
parameter. -/
def refreshMobileVideoPanelContent
    (extractVideoIdFromUrl : String → Option String)
    (titleTranslation descriptionTranslation : Bool)
    (locationHrefAtExec : String) : VideoPanelRefreshOutcome :=
  match extractVideoIdFromUrl locationHrefAtExec with
  | none => { usedVideoId := none, titlePatched := false, descPatched := false }
  | some vid =>
    { usedVideoId := some vid
      titlePatched := titleTranslation
      descPatched := descriptionTranslation }

/-- `refreshMobileChannelPanelContent` (mobilePanel.ts lines 187-193): when
description translation is on, run `updateMobilePanelChannelDescription`,
which itself derives the channel handle from `window.location.href` at
execution time (line 108); `getChannelHandle` (src/utils/utils, not in the
provided sources) is a parameter. -/
def refreshMobileChannelPanelContent
    (getChannelHandle : String → Option String)
    (descriptionTranslation : Bool) (env : FetchEnv) (currentText : String)
    (locationHrefAtExec : String) : Option ChannelDescOutcome :=
  if descriptionTranslation then
    some (updateMobilePanelChannelDescription
      { env with channelHandle := getChannelHandle locationHrefAtExec }
      currentText)
  else none

/-- Which refresh executed and its outcome. -/
inductive RefreshOutcome
  | video (o : VideoPanelRefreshOutcome)
  | channel (o : ChannelDescOutcome)
  deriving DecidableEq, Repr

/-- The full trigger-to-refresh pipeline: the mutation batch delivered at
trigger time (when the page location was `locationAtTrigger`) selects which
refresh routine fires, and the refresh routine executes later, reading the
location at execution time. The batch passes no identifier to the refresh
routines — faithful to the source, where both routines take no arguments. -/
def observerDispatch (extract getHandle : String → Option String)
    (titleTranslation descriptionTranslation : Bool) (env : FetchEnv)
    (currentText : String) (muts : List Mutation)
    (locationAtTrigger locationAtExec : String) : Option RefreshOutcome :=
  match mobilePanelCallback muts with
  | [.video] =>
    some (.video (refreshMobileVideoPanelContent extract titleTranslation
      descriptionTranslation locationAtExec))
  | [.channel] =>
    (refreshMobileChannelPanelContent getHandle descriptionTranslation env
      currentText locationAtExec).map .channel
  | _ => none

/-! ## Theorems about the guard script -/

/-- C10: when the guard script's mode attribute is absent, empty, or carries
any value other than the exact string `"disable"`, the script behaves exactly
as if the mode were `"enable"` (it attempts to install the guard); only the
exact value `"disable"` selects the restore path. -/
theorem guard_mode_defaults_to_enable :
    (∀ attr : Option String, selectsDisablePath attr = true ↔ attr = some "disable") ∧
    (∀ (attr : Option String) (descPresent : Bool) (st : GuardState),
      attr ≠ some "disable" →
      runGuardScript attr descPresent st = runGuardScript (some "enable") descPresent st) := by
  constructor
  · intro attr
    cases attr with
    | none => simp [selectsDisablePath, readGuardMode]
    | some s =>
      simp only [selectsDisablePath, readGuardMode, Option.some.injEq]
      by_cases hs : s = ""
      · simp [hs]
      · simp [hs]
  · intro attr descPresent st hne
    have hmode : readGuardMode attr ≠ "disable" := by
      cases attr with
      | none => simp [readGuardMode]
      | some s =>
        simp only [readGuardMode]
        by_cases hs : s = ""
        · simp [hs]
        · simpa [hs] using fun h => hne (by rw [h])
    simp only [runGuardScript]
    rw [if_neg hmode, if_neg (show ¬readGuardMode (some "enable") = "disable" by decide)]

/-- Witness for `guard_mode_defaults_to_enable` at the concrete attribute
value `"bogus"`. -/
theorem guard_mode_defaults_to_enable_witness :
    runGuardScript (some "bogus") true initGuardState =
      runGuardScript (some "enable") true initGuardState :=
  guard_mode_defaults_to_enable.2 (some "bogus") true initGuardState (by decide)

/-- C1 (code bug): enabling twice leaves exactly one saved original and the
wrapper active, and disabling when nothing was ever enabled is a no-op — but
after enable, disable, enable the guard is NOT functional again: `disable`
never clears `window.__YNT_ORIGINAL_REMOVE_CHILD__` (the clearing line is
commented out in the source), so the second `enable` takes the
already-installed early return, the native primitive stays active, and a
removal inside the protected container is performed instead of suppressed. -/
theorem guard_reenable_after_disable_not_functional :
    (runGuardScript (some "enable") true (runGuardScript (some "enable") true initGuardState) =
      { savedOriginal := some .original, removeChild := .wrapper, blockCount := 0 }) ∧
    (runGuardScript (some "disable") true initGuardState = initGuardState) ∧
    ((runGuardScript (some "enable") true
        (runGuardScript (some "disable") true
          (runGuardScript (some "enable") true initGuardState))).removeChild
      = .original) ∧
    ((callRemoveChild (runGuardScript (some "enable") true
        (runGuardScript (some "disable") true
          (runGuardScript (some "enable") true initGuardState))).removeChild
        sampleDom 1 1 2).dom.parent 2 = none) ∧
    ((callRemoveChild (runGuardScript (some "enable") true
        (runGuardScript (some "disable") true
          (runGuardScript (some "enable") true initGuardState))).removeChild
        sampleDom 1 1 2).blockedDelta = 0) := by
  refine ⟨by decide, by decide, by decide, ?_, ?_⟩ <;> rfl

/-- C3: under the installed wrapper, a call whose receiver is the protected
description element or lies inside its subtree is suppressed — the call
returns the argument child, the DOM is unchanged, and the block counter is
incremented; a call whose receiver is outside delegates to the saved original
primitive, and when the argument really is a child of the receiver it is
actually removed (its parent link is cleared) and returned. -/
theorem guard_scoping (d : Dom) (descEl receiver child : Nat) :
    (isInDescriptionElement d descEl receiver = true →
      (guardedRemoveChild d descEl receiver child).returned = some child ∧
      (guardedRemoveChild d descEl receiver child).dom.parent = d.parent ∧
      (guardedRemoveChild d descEl receiver child).blockedDelta = 1) ∧
    (isInDescriptionElement d descEl receiver = false →
      guardedRemoveChild d descEl receiver child =
        callRemoveChild .original d descEl receiver child ∧
      (d.parent child = some receiver →
        (guardedRemoveChild d descEl receiver child).dom.parent child = none ∧
        (guardedRemoveChild d descEl receiver child).returned = some child)) := by
  constructor
  · intro hin
    simp [guardedRemoveChild, hin]
  · intro hout
    constructor
    · simp [guardedRemoveChild, callRemoveChild, hout]
    · intro hc
      simp [guardedRemoveChild, hout, nativeRemoveChild, hc]

/-- Witness for `guard_scoping` on the concrete `sampleDom`: receiver 2 is
inside the description element (node 1), so the call is suppressed; receiver
0 is outside, and its child 3 is actually removed. -/
theorem guard_scoping_witness :
    (guardedRemoveChild sampleDom 1 2 9).returned = some 9 ∧
    (guardedRemoveChild sampleDom 1 2 9).blockedDelta = 1 ∧
    (guardedRemoveChild sampleDom 1 0 3).dom.parent 3 = none ∧
    (guardedRemoveChild sampleDom 1 0 3).returned = some 3 := by
  have hin : isInDescriptionElement sampleDom 1 2 = true := by
    simp [isInDescriptionElement, sampleDom]
  have hout : isInDescriptionElement sampleDom 1 0 = false := by
    simp [isInDescriptionElement, sampleDom]
  have hc : sampleDom.parent 3 = some 0 := by simp [sampleDom]
  exact ⟨((guard_scoping sampleDom 1 2 9).1 hin).1,
    ((guard_scoping sampleDom 1 2 9).1 hin).2.2,
    (((guard_scoping sampleDom 1 0 3).2 hout).2 hc).1,
    (((guard_scoping sampleDom 1 0 3).2 hout).2 hc).2⟩

/-! ## Theorems about the two-source fallback (C2) -/

/-- C2 counterexample: in the channel-renderer name fetch, with the Data API
enabled (flag and key present) and its name lookup failing, the fetch ends
with a null name and no Internal API call is ever made — even though the
InnerTube responses in this environment would have succeeded. The claim that
every Official-API failure falls through to the Internal API is false here. -/
theorem officialApi_name_failure_no_fallback :
    (channelRendererNameFetch dataApiNameFailEnv).resolved = none ∧
    (channelRendererNameFetch dataApiNameFailEnv).calls.all
      (fun c => !c.isInnerTube) = true ∧
    dataApiNameFailEnv.innerTubeName = some "Nowtech Original" := by
  decide

/-- C2 amended: in the mobile channel-description path, with the Data API
enabled and a handle available, a successful by-handle Data API result with a
nonempty description is used and only that one upstream call is made (the
Internal API description fetch never runs); when the by-handle Data API
result carries no nonempty description, the Internal API is attempted
(handle-to-id discovery call); and when the Data API is not enabled (flag or
credential missing) every upstream call of the description path goes to the
Internal API. In the channel-renderer name fetch, by contrast, an enabled
Data API is consulted exclusively: the outcome is exactly its answer, with no
Internal API fallback on failure. -/
theorem officialApi_fallback_amended (env : FetchEnv) (cur : String) :
    (isYouTubeDataAPIEnabled env.settings = true →
      (∀ h, env.channelHandle = some h →
        (∀ d, env.dataApiByHandle = some d → d.description ≠ "" →
          (updateMobilePanelChannelDescription env cur).resolved =
            some d.description ∧
          (updateMobilePanelChannelDescription env cur).calls =
            [.dataApiChannelByHandle]) ∧
        ((∀ d, env.dataApiByHandle = some d → d.description = "") →
          ApiCall.innerTubeChannelId ∈
            (updateMobilePanelChannelDescription env cur).calls)) ∧
      channelRendererNameFetch env =
        { calls := [.dataApiChannelName], resolved := env.dataApiName }) ∧
    (isYouTubeDataAPIEnabled env.settings = false →
      (updateMobilePanelChannelDescription env cur).calls.all
        ApiCall.isInnerTube = true) := by
  constructor
  · intro hen
    have hkey : ¬env.settings.apiKey = "" := by
      simp [isYouTubeDataAPIEnabled] at hen
      exact hen.2
    constructor
    · intro h hh
      constructor
      · intro d hd hdesc
        simp [updateMobilePanelChannelDescription, hen, hkey, hh, hd, hdesc]
      · intro hfail
        cases hbh : env.dataApiByHandle with
        | none =>
          cases hid : env.innerTubeId with
          | none =>
            simp [updateMobilePanelChannelDescription, hen, hkey, hh, hbh, hid]
          | some cid =>
            cases hbid : env.dataApiById with
            | none =>
              cases htd : env.innerTubeDescription with
              | none =>
                simp [updateMobilePanelChannelDescription, hen, hkey, hh, hbh,
                  hid, hbid, htd]
              | some ds =>
                by_cases hds : ds = "" <;>
                  simp [updateMobilePanelChannelDescription, hen, hkey, hh,
                    hbh, hid, hbid, htd, hds]
            | some d' =>
              cases htd : env.innerTubeDescription with
              | none =>
                by_cases hd' : d'.description = "" <;>
                  simp [updateMobilePanelChannelDescription, hen, hkey, hh,
                    hbh, hid, hbid, htd, hd']
              | some ds =>
                by_cases hd' : d'.description = "" <;>
                  by_cases hds : ds = "" <;>
                    simp [updateMobilePanelChannelDescription, hen, hkey, hh,
                      hbh, hid, hbid, htd, hd', hds]
        | some d =>
          have hd := hfail d hbh
          cases hid : env.innerTubeId with
          | none =>
            simp [updateMobilePanelChannelDescription, hen, hkey, hh, hbh,
              hd, hid]
          | some cid =>
            cases htd : env.innerTubeDescription with
            | none =>
              simp [updateMobilePanelChannelDescription, hen, hkey, hh, hbh,
                hd, hid, htd]
            | some ds =>
              by_cases hds : ds = "" <;>
                simp [updateMobilePanelChannelDescription, hen, hkey, hh,
                  hbh, hd, hid, htd, hds]
    · simp [channelRendererNameFetch, hen]
  · intro hdis
    cases hh : env.channelHandle with
    | none =>
      simp [updateMobilePanelChannelDescription, hdis, hh]
    | some h =>
      cases hid : env.innerTubeId with
      | none =>
        simp [updateMobilePanelChannelDescription, hdis, hh, hid,
          ApiCall.isInnerTube]
      | some cid =>
        cases hdesc : env.innerTubeDescription with
        | none =>
          simp [updateMobilePanelChannelDescription, hdis, hh, hid, hdesc,
            ApiCall.isInnerTube]
        | some ds =>
          by_cases hds : ds = "" <;>
            simp [updateMobilePanelChannelDescription, hdis, hh, hid, hdesc,
              hds, ApiCall.isInnerTube]

/-- Witness for `officialApi_fallback_amended`: concrete environments
exercising the successful Data API branch, the failing-name branch, and the
disabled branch. -/
theorem officialApi_fallback_amended_witness :
    ((updateMobilePanelChannelDescription
        { dataApiNameFailEnv with
            dataApiByHandle := some ⟨"UC123", "original description"⟩ }
        "current").resolved = some "original description") ∧
    (ApiCall.innerTubeChannelId ∈
      (updateMobilePanelChannelDescription dataApiNameFailEnv "current").calls) ∧
    ((updateMobilePanelChannelDescription
        { dataApiNameFailEnv with settings := ⟨false, ""⟩ }
        "current").calls.all ApiCall.isInnerTube = true) := by
  refine ⟨?_, ?_, ?_⟩
  · exact ((((officialApi_fallback_amended
      { dataApiNameFailEnv with
          dataApiByHandle := some ⟨"UC123", "original description"⟩ }
      "current").1 (by decide)).1 "Nowtech" (by decide)).1
        ⟨"UC123", "original description"⟩ (by decide) (by decide)).1
  · exact (((officialApi_fallback_amended dataApiNameFailEnv "current").1
      (by decide)).1 "Nowtech" (by decide)).2 (by intro d hd; cases hd)
  · exact (officialApi_fallback_amended
      { dataApiNameFailEnv with settings := ⟨false, ""⟩ } "current").2
      (by decide)

/-! ## Theorems about the channel-description comparison (C6) -/

/-- An InnerTube-only environment whose original channel description is
`"Tech videos"`. -/
def suffixEnv : FetchEnv :=
  { settings := { dataApiEnabled := false, apiKey := "" }
    channelHandle := some "Nowtech"
    dataApiByHandle := none
    dataApiById := none
    innerTubeId := some "UC123"
    innerTubeDescription := some "Tech videos"
    dataApiName := none
    innerTubeName := none }

/-- Helper: whenever `updateMobilePanelChannelDescription` resolves an
original description, its write decision is exactly the negation of
`normalizeText(original).startsWith(normalizeText(current))`. -/
theorem channelDesc_wrote_spec (env : FetchEnv) (cur : String) (d : String)
    (hres : (updateMobilePanelChannelDescription env cur).resolved = some d) :
    (updateMobilePanelChannelDescription env cur).wrote =
      !jsStartsWith (normalizeText d) (normalizeText (jsTrim cur)) := by
  unfold updateMobilePanelChannelDescription at hres ⊢
  repeat' split at hres
  all_goals try simp_all
  all_goals repeat' split at hres
  all_goals simp_all

/-- C6 counterexample: with the resolved original description
`"Tech videos"` and the displayed text `"Tech videos (translated)"` — the
current text differing from the original only by an appended suffix — the
mobile channel-description operation DOES write (the source checks that the
original starts with the current text, and a longer current text is never a
prefix of the original), and the search-renderer description patch, which
compares by trimmed full equality, writes as well. The claim that such a
current text produces no write is false. -/
theorem channelDesc_appended_suffix_writes :
    (updateMobilePanelChannelDescription suffixEnv
      "Tech videos (translated)").resolved = some "Tech videos" ∧
    (updateMobilePanelChannelDescription suffixEnv
      "Tech videos (translated)").wrote = true ∧
    rendererDescriptionWrites "Tech videos (translated)"
      (some "Tech videos") = true := by
  decide

/-- C6 amended: the mobile channel-description operation skips the write
when the normalized current text is a prefix of the normalized original —
in particular when the two are equal after normalization, and when the
displayed text is a truncation of the original; a current text strictly
extending the original is rewritten (see the counterexample). The
search-renderer description patch compares by trimmed full equality, not by
prefix: equal trimmed text produces no write there. -/
theorem channelDesc_prefix_match_amended (env : FetchEnv) (cur d : String)
    (hres : (updateMobilePanelChannelDescription env cur).resolved = some d) :
    (normalizeText (jsTrim cur) = normalizeText d →
      (updateMobilePanelChannelDescription env cur).wrote = false) ∧
    (∀ t, normalizeText d = normalizeText (jsTrim cur) ++ t →
      (updateMobilePanelChannelDescription env cur).wrote = false) ∧
    (∀ c o, jsTrim c = o → rendererDescriptionWrites c (some o) = false) := by
  refine ⟨?_, ?_, ?_⟩
  · intro heq
    rw [channelDesc_wrote_spec env cur d hres, ← heq]
    simp [jsStartsWith, List.isPrefixOf_iff_prefix]
  · intro t ht
    rw [channelDesc_wrote_spec env cur d hres, ht]
    simp only [jsStartsWith, String.data_append, Bool.not_eq_false',
      List.isPrefixOf_iff_prefix]
    exact List.prefix_append _ _
  · intro c o hco
    simp [rendererDescriptionWrites, hco]

/-- Witness for `channelDesc_prefix_match_amended`: whitespace/case-only
differences produce no write, and a truncated current text produces no
write. -/
theorem channelDesc_prefix_match_amended_witness :
    (updateMobilePanelChannelDescription suffixEnv
      "  Tech   Videos  ").wrote = false ∧
    (updateMobilePanelChannelDescription suffixEnv "Tech").wrote = false ∧
    rendererDescriptionWrites " Tech videos " (some "Tech videos") = false := by
  refine ⟨?_, ?_, ?_⟩
  · exact (channelDesc_prefix_match_amended suffixEnv "  Tech   Videos  "
      "Tech videos" (by decide)).1 (by decide)
  · exact (channelDesc_prefix_match_amended suffixEnv "Tech"
      "Tech videos" (by decide)).2.1 " videos" (by decide)
  · exact (channelDesc_prefix_match_amended suffixEnv "Tech"
      "Tech videos" (by decide)).2.2 " Tech videos " "Tech videos" (by decide)

/-! ## Theorems about patch idempotence and the video-description cache -/

/-- C7 counterexample: not every patch operation skips the write on
normalized-equal text. The renderer description patch (trimmed raw equality
against the original) writes when the displayed text `"Tech  Videos"` and
the resolved original `"tech videos"` are equal after normalization but
differ in raw form. -/
theorem renderer_normalized_equal_still_writes :
    normalizeText "Tech  Videos" = normalizeText "tech videos" ∧
    rendererDescriptionWrites "Tech  Videos" (some "tech videos") = true := by
  decide

/-- C7 amended: idempotence holds per operation, with the comparison each
operation actually performs. The title patch skips the write when current
and resolved original are equal after normalization, and its second
successive call (same fetch result, no intervening DOM change) never
writes. The mobile channel-description patch skips the write when the
normalized current text equals the normalized resolved original. The
renderer description patch short-circuits on trimmed raw equality instead —
text equal to the original only after normalization is rewritten (see the
counterexample) — it skips the write when the trimmed current text equals
the original, and for an original without edge whitespace the call repeated
after a write is a no-op. -/
theorem patch_idempotence_amended (cur t d orig : String)
    (fetched : Option String) (env : FetchEnv) :
    (fetched = some t → normalizeText cur = normalizeText t →
      (updateMobilePanelTitle cur fetched).2 = false) ∧
    (updateMobilePanelTitle
        (updateMobilePanelTitle cur fetched).1 fetched).2 = false ∧
    ((updateMobilePanelChannelDescription env cur).resolved = some d →
      normalizeText (jsTrim cur) = normalizeText d →
      (updateMobilePanelChannelDescription env cur).wrote = false) ∧
    (jsTrim cur = orig → rendererDescriptionWrites cur (some orig) = false) ∧
    (jsTrim orig = orig → rendererDescriptionWrites orig (some orig) = false) := by
  refine ⟨?_, ?_, ?_, ?_, ?_⟩
  · intro hf heq
    subst hf
    simp [updateMobilePanelTitle, heq]
  · match fetched with
    | none => simp [updateMobilePanelTitle]
    | some s =>
      by_cases hs : s = ""
      · simp [updateMobilePanelTitle, hs]
      · by_cases heq : normalizeText cur = normalizeText s <;>
          simp [updateMobilePanelTitle, hs, heq]
  · intro hres heq
    rw [channelDesc_wrote_spec env cur d hres, ← heq]
    simp [jsStartsWith, List.isPrefixOf_iff_prefix]
  · intro hco
    simp [rendererDescriptionWrites, hco]
  · intro ho
    simp [rendererDescriptionWrites, ho]

/-- Witness for `patch_idempotence_amended`: the spec's `"Foo   Bar"` vs
`"foo bar"` title scenario produces no write, the repeated title call after
a real write is a no-op, the mobile channel-description patch skips on
normalized-equal text, and the renderer patch skips on trimmed raw
equality and on a repeated call. -/
theorem patch_idempotence_amended_witness :
    (updateMobilePanelTitle "Foo   Bar" (some "foo bar")).2 = false ∧
    (updateMobilePanelTitle
        (updateMobilePanelTitle "Translated title" (some "Original title")).1
        (some "Original title")).2 = false ∧
    (updateMobilePanelChannelDescription suffixEnv
      " tech  VIDEOS ").wrote = false ∧
    rendererDescriptionWrites " tech videos " (some "tech videos") = false ∧
    rendererDescriptionWrites "tech videos" (some "tech videos") = false :=
  ⟨(patch_idempotence_amended "Foo   Bar" "foo bar" "" ""
      (some "foo bar") suffixEnv).1 rfl (by decide),
   (patch_idempotence_amended "Translated title" "Original title" "" ""
      (some "Original title") suffixEnv).2.1,
   (patch_idempotence_amended " tech  VIDEOS " "" "Tech videos" ""
      none suffixEnv).2.2.1 (by decide) (by decide),
   (patch_idempotence_amended " tech videos " "" "" "tech videos"
      none suffixEnv).2.2.2.1 (by decide),
   (patch_idempotence_amended "" "" "" "tech videos"
      none suffixEnv).2.2.2.2 (by decide)⟩

/-- C9: the mobile video-description path treats an empty string as absent
at both ends of the cache — a cached empty string is a cache miss (a fetch
is issued), and a fetched empty string is neither stored in the cache nor
written to the DOM. -/
theorem videoDesc_empty_as_absent (cache : List (String × String))
    (v : String) :
    (∀ fetchResult, getDescription cache v = some "" →
      (updateMobilePanelVideoDescription cache v fetchResult).fetchIssued =
        true) ∧
    (truthyStr (getDescription cache v) = false →
      (updateMobilePanelVideoDescription cache v (some "")).cache = cache ∧
      (updateMobilePanelVideoDescription cache v (some "")).domWrite = none) := by
  constructor
  · intro fetchResult hc
    cases fetchResult with
    | none => simp [updateMobilePanelVideoDescription, hc, truthyStr]
    | some t =>
      by_cases ht : t = "" <;>
        simp [updateMobilePanelVideoDescription, hc, truthyStr, ht]
  · intro hmiss
    constructor <;> simp [updateMobilePanelVideoDescription, hmiss]

/-- Witness for `videoDesc_empty_as_absent`: a cache holding an empty string
for the video id leads to a fetch, and a fetched empty string changes
nothing. -/
theorem videoDesc_empty_as_absent_witness :
    (updateMobilePanelVideoDescription [("v1", "")] "v1"
      (some "")).fetchIssued = true ∧
    (updateMobilePanelVideoDescription [("v1", "")] "v1" (some "")).cache =
      [("v1", "")] ∧
    (updateMobilePanelVideoDescription [("v1", "")] "v1" (some "")).domWrite =
      none :=
  ⟨(videoDesc_empty_as_absent [("v1", "")] "v1").1 (some "") (by decide),
   ((videoDesc_empty_as_absent [("v1", "")] "v1").2 (by decide)).1,
   ((videoDesc_empty_as_absent [("v1", "")] "v1").2 (by decide)).2⟩

/-! ## Theorems about the observer lifecycle (C4) -/

/-- C4 counterexample: two setup calls made while both container waits are
still pending (two synchronous back-to-back `setupMobilePanelObserver()`
calls, whose `waitForElement` promises resolve afterwards) leave TWO active
subscriptions: each setup's cleanup ran before the previous setup's
installation, so the first observer is installed, then the second
resolution overwrites the handle without disconnecting it. The claim that
calling setup twice never leaks a previous subscription is false. -/
theorem observer_overlapping_setup_leaks :
    (runObserver [.setup, .setup, .resolve, .resolve]).active = [0, 1] ∧
    (runObserver [.setup, .setup, .resolve, .resolve]).active.length = 2 ∧
    (runObserver [.setup, .setup, .resolve, .resolve]).handle = some 1 := by
  decide

/-- Helper: sequential (non-overlapping) observer operations preserve the
single-active-subscription invariant. -/
theorem runObserverOps_inv (ops : List ObserverOp) (st : ObserverState)
    (h : ObserverInv st) : ObserverInv (runObserverOps ops st) := by
  induction ops generalizing st with
  | nil => simpa [runObserverOps] using h
  | cons op rest ih =>
    obtain ⟨hp, hh⟩ := h
    cases op with
    | setupResolved =>
      have hstep : ObserverInv (resolvePanelWait (setupMobilePanelObserverSync st)) := by
        cases hhandle : st.handle with
        | none =>
          have hact : st.active = [] := by
            rw [hhandle] at hh; exact hh
          simp [setupMobilePanelObserverSync, cleanupMobilePanelObserver,
            resolvePanelWait, hhandle, hp, hact, ObserverInv]
        | some o =>
          have hact : st.active = [o] := by
            rw [hhandle] at hh; exact hh
          simp [setupMobilePanelObserverSync, cleanupMobilePanelObserver,
            resolvePanelWait, hhandle, hp, hact, ObserverInv]
      exact ih _ hstep
    | cleanup =>
      have hstep : ObserverInv (cleanupMobilePanelObserver st) := by
        cases hhandle : st.handle with
        | none =>
          have hact : st.active = [] := by
            rw [hhandle] at hh; exact hh
          simp [cleanupMobilePanelObserver, hhandle, hp, hact, ObserverInv]
        | some o =>
          have hact : st.active = [o] := by
            rw [hhandle] at hh; exact hh
          simp [cleanupMobilePanelObserver, hhandle, hp, hact, ObserverInv]
      exact ih _ hstep

/-- C4 amended: under non-overlapped use — each setup's asynchronous
installation resolves before the next lifecycle call — the
cleanup-before-setup discipline does guarantee at most one active
subscription at every point: the handle always points at the single active
observer (or none is active), and cleanup disconnects it and clears the
handle. (Two setups whose waits are simultaneously pending leak the first
subscription — see the counterexample.) -/
theorem observer_sequential_setup_invariant (ops : List ObserverOp) :
    (runObserverOps ops initObserverState).active.length ≤ 1 ∧
    (∀ o, (runObserverOps ops initObserverState).handle = some o →
      (runObserverOps ops initObserverState).active = [o]) ∧
    ((runObserverOps ops initObserverState).handle = none →
      (runObserverOps ops initObserverState).active = []) ∧
    (cleanupMobilePanelObserver (runObserverOps ops initObserverState)).active
      = [] ∧
    (cleanupMobilePanelObserver (runObserverOps ops initObserverState)).handle
      = none := by
  obtain ⟨hp, hh⟩ := runObserverOps_inv ops initObserverState
    (by simp [ObserverInv, initObserverState])
  cases hhandle : (runObserverOps ops initObserverState).handle with
  | none =>
    have hact : (runObserverOps ops initObserverState).active = [] := by
      rw [hhandle] at hh; exact hh
    refine ⟨by simp [hact], ?_, fun _ => hact, ?_, ?_⟩
    · intro o ho
      exact absurd ho (by simp)
    · simp [cleanupMobilePanelObserver, hhandle, hact]
    · simp [cleanupMobilePanelObserver, hhandle]
  | some o =>
    have hact : (runObserverOps ops initObserverState).active = [o] := by
      rw [hhandle] at hh; exact hh
    refine ⟨by simp [hact], ?_, ?_, ?_, ?_⟩
    · intro o' ho'
      injection ho' with ho''
      rw [← ho'']
      exact hact
    · intro hnone
      exact absurd hnone (by simp)
    · simp [cleanupMobilePanelObserver, hhandle, hact]
    · simp [cleanupMobilePanelObserver, hhandle]

/-- Witness for `observer_sequential_setup_invariant` on two sequential
setups followed by the invariant checks. -/
theorem observer_sequential_setup_invariant_witness :
    (runObserverOps [.setupResolved, .setupResolved]
      initObserverState).active = [1] ∧
    (runObserverOps [.setupResolved, .setupResolved]
      initObserverState).active.length ≤ 1 ∧
    (cleanupMobilePanelObserver (runObserverOps [.setupResolved, .setupResolved]
      initObserverState)).active = [] :=
  ⟨(observer_sequential_setup_invariant [.setupResolved, .setupResolved]).2.1 1
      (by decide),
   (observer_sequential_setup_invariant [.setupResolved, .setupResolved]).1,
   (observer_sequential_setup_invariant
      [.setupResolved, .setupResolved]).2.2.2.1⟩

/-! ## Theorems about the observer callback dispatch (C5) -/

/-- Helper: the callback fires at most one refresh routine per batch. -/
theorem mobilePanelCallback_length_le (muts : List Mutation) :
    (mobilePanelCallback muts).length ≤ 1 := by
  induction muts with
  | nil => simp [mobilePanelCallback]
  | cons m rest ih =>
    simp only [mobilePanelCallback]
    cases m.isChildList
    · simpa using ih
    · cases m.addedNodes.any nodeQualifiesVideo
      · cases m.addedNodes.any nodeQualifiesChannel
        · simpa using ih
        · simp
      · simp

/-- Helper: the callback fires exactly one refresh when some childList
mutation carries a qualifying marker among its added nodes. -/
theorem mobilePanelCallback_fires (muts : List Mutation)
    (h : (muts.any fun mu => mu.isChildList &&
      (mu.addedNodes.any nodeQualifiesVideo ||
        mu.addedNodes.any nodeQualifiesChannel)) = true) :
    (mobilePanelCallback muts).length = 1 := by
  induction muts with
  | nil => cases h
  | cons m rest ih =>
    simp only [mobilePanelCallback]
    rw [List.any_cons] at h
    cases hcl : m.isChildList
    · rw [hcl] at h
      simp only [Bool.false_and, Bool.false_or] at h
      simp only [Bool.false_eq_true, if_false]
      exact ih h
    · cases hv : m.addedNodes.any nodeQualifiesVideo
      · cases hch : m.addedNodes.any nodeQualifiesChannel
        · rw [hcl, hv, hch] at h
          simp only [Bool.or_self, Bool.and_false, Bool.false_or] at h
          simp only [Bool.false_eq_true, if_false]
          exact ih h
        · simp
      · simp

/-- C5 counterexample: a batch whose first childList mutation adds only a
qualifying channel marker and whose second adds a qualifying video marker
contains both marker kinds among added nodes, yet the CHANNEL refresh fires
(the scan stops at the first matching mutation), so the video refresh does
not take precedence across the batch as the claim states. -/
theorem observer_channel_mutation_first_fires_channel :
    ((([⟨true, [chanNode], []⟩, ⟨true, [vidNode], []⟩] : List Mutation).any
        fun mu => mu.addedNodes.any nodeQualifiesVideo) = true) ∧
    ((([⟨true, [chanNode], []⟩, ⟨true, [vidNode], []⟩] : List Mutation).any
        fun mu => mu.addedNodes.any nodeQualifiesChannel) = true) ∧
    mobilePanelCallback [⟨true, [chanNode], []⟩, ⟨true, [vidNode], []⟩] =
      [.channel] := by
  decide

/-- C5 amended: at most one refresh routine fires per batch, and exactly one
fires when any childList mutation carries a qualifying marker among its
added nodes; scanning stops at the first matching mutation, and the video
check precedes the channel check only WITHIN a mutation — in particular,
when the first matching mutation carries both a qualifying video node and a
qualifying channel node, the video refresh is the one that fires. Across
mutations, the earlier matching mutation wins regardless of kind. -/
theorem observer_single_fire_amended (muts : List Mutation) (m : Mutation)
    (rest : List Mutation) :
    (mobilePanelCallback muts).length ≤ 1 ∧
    ((muts.any fun mu => mu.isChildList &&
        (mu.addedNodes.any nodeQualifiesVideo ||
          mu.addedNodes.any nodeQualifiesChannel)) = true →
      (mobilePanelCallback muts).length = 1) ∧
    (m.isChildList = true → m.addedNodes.any nodeQualifiesVideo = true →
      mobilePanelCallback (m :: rest) = [.video]) := by
  refine ⟨mobilePanelCallback_length_le muts,
    mobilePanelCallback_fires muts, ?_⟩
  intro hcl hv
  simp [mobilePanelCallback, hcl, hv]

/-- Witness for `observer_single_fire_amended`: a single mutation carrying
both markers fires the video refresh; a mixed two-mutation batch fires
exactly one refresh. -/
theorem observer_single_fire_amended_witness :
    mobilePanelCallback [⟨true, [vidNode, chanNode], []⟩] = [.video] ∧
    (mobilePanelCallback
      [⟨true, [chanNode], []⟩, ⟨true, [vidNode], []⟩]).length = 1 :=
  ⟨(observer_single_fire_amended [] ⟨true, [vidNode, chanNode], []⟩ []).2.2
      rfl (by decide),
   (observer_single_fire_amended
      [⟨true, [chanNode], []⟩, ⟨true, [vidNode], []⟩]
      ⟨false, [], []⟩ []).2.1 (by decide)⟩

/-! ## Theorems about identifier re-derivation at refresh time (C8) -/

/-- C8: the refresh routines are keyed to the page location at the moment
the refresh executes, never to data captured at the triggering mutation —
the dispatch outcome is independent of the location at trigger time, a
stale channel handle held in the environment is irrelevant (the handle is
re-derived from the execution-time location inside the refresh), and when
the video refresh fires its video id is exactly
`extractVideoIdFromUrl(location at execution time)`. -/
theorem refresh_rederives_identifier_at_execution
    (extract getHandle : String → Option String) (tT dT : Bool)
    (env : FetchEnv) (cur : String) (muts : List Mutation)
    (locTrig locTrig' locExec : String) (stale : Option String) :
    (observerDispatch extract getHandle tT dT env cur muts locTrig locExec =
      observerDispatch extract getHandle tT dT env cur muts locTrig' locExec) ∧
    (observerDispatch extract getHandle tT dT
        { env with channelHandle := stale } cur muts locTrig locExec =
      observerDispatch extract getHandle tT dT env cur muts locTrig locExec) ∧
    (∀ o, observerDispatch extract getHandle tT dT env cur muts locTrig
        locExec = some (.video o) → o.usedVideoId = extract locExec) := by
  refine ⟨rfl, rfl, ?_⟩
  intro o ho
  unfold observerDispatch at ho
  split at ho
  · simp only [Option.some.injEq, RefreshOutcome.video.injEq] at ho
    rw [← ho]
    cases hx : extract locExec <;>
      simp [refreshMobileVideoPanelContent, hx]
  · unfold refreshMobileChannelPanelContent at ho
    cases dT <;> simp at ho
  · cases ho

/-- Witness for `refresh_rederives_identifier_at_execution`: a video-marker
batch triggered at an old location, executed at the current watch URL, uses
the id extracted from the current URL. -/
theorem refresh_rederives_identifier_witness :
    (refreshMobileVideoPanelContent
        (fun l => if l = "m.youtube.com/watch?v=abc123" then some "abc123"
          else none)
        true true "m.youtube.com/watch?v=abc123").usedVideoId =
      (fun l => if l = "m.youtube.com/watch?v=abc123" then some "abc123"
        else none) "m.youtube.com/watch?v=abc123" :=
  (refresh_rederives_identifier_at_execution
      (fun l => if l = "m.youtube.com/watch?v=abc123" then some "abc123"
        else none)
      (fun _ => none) true true suffixEnv "c" [⟨true, [vidNode], []⟩]
      "m.youtube.com/watch?v=old" "m.youtube.com/watch?v=old2"
      "m.youtube.com/watch?v=abc123" (some "stale")).2.2
    (refreshMobileVideoPanelContent
      (fun l => if l = "m.youtube.com/watch?v=abc123" then some "abc123"
        else none)
      true true "m.youtube.com/watch?v=abc123") rfl

end YNT
